import Mathlib

/-
Verification of the liblifthttp event-loop core (src/EventLoop.cpp) and the
response header lookup (src/response.cpp) against its design specification.

The C++ code is shallowly embedded: each function that a claim touches is
translated into a pure Lean function over explicit state, with the external
collaborators (the curl multi engine and the libuv reactor) modelled as
oracles or explicit parameters.  Callback-driven control flow is modelled
as the list of externally visible actions the function performs, in
program order.  The uint64_t active request counter is modelled as a Nat
reduced mod 2^64.
-/

set_option autoImplicit false

namespace Lift

/-! ## Response header lookup (src/response.cpp) -/

/-- One stored HTTP header.  The header class itself lives outside the two
given source files; the lookup in response.cpp only needs its name and
value accessors, and compares names with string equality. -/
structure header where
  name : String
  value : String
deriving DecidableEq, Repr

/-- A response as far as the header lookup is concerned: the ordered
sequence of stored headers, field m_headers in the source. -/
structure response where
  m_headers : List header
deriving DecidableEq, Repr

/-- The loop body of response::header translated directly: walk m_headers
in storage order and return the first header whose name equals the query. -/
def findHeader (nm : String) : List header → Option header
  | [] => none
  | h :: rest => if h.name = nm then some h else findHeader nm rest

/-- Embedding of response::header (src/response.cpp lines 13-24): iterate
over m_headers, return the first header with equal name, else nullopt.
The C++ method is const; the embedding is a pure function of the response. -/
def response.header (r : response) (nm : String) : Option header :=
  findHeader nm r.m_headers

/-! ## Shutdown spin condition (EventLoop::Stop, src/EventLoop.cpp lines 160-184) -/

/-- The spin-continue condition of EventLoop::Stop translated from source
line 177: while(!m_timeout_timer_closed && !m_async_closed) sleep 1ms.
True means keep spinning; once it is false, Stop proceeds to uv_stop and
joins the worker thread. -/
def stop_spin_continue (timeout_timer_closed : Bool) (async_closed : Bool) : Bool :=
  !timeout_timer_closed && !async_closed

/-- Modelled from the spec: the intended spin-continue condition, spinning
until BOTH the timer-closed flag and the wakeup-closed flag are true
(spec section 4.7 step 4: spin-wait on wakeup_closed AND timer_closed). -/
def stop_spin_continue_spec (timeout_timer_closed : Bool) (async_closed : Bool) : Bool :=
  !(timeout_timer_closed && async_closed)

/-! ## The engine driver checkActions (src/EventLoop.cpp lines 221-265)

The curl multi engine is modelled as an oracle: a list of result codes
returned by successive curl_multi_socket_action calls (exhaustion of the
list stands for the engine settling with OK), a list of messages pending
in curl_multi_info_read, and the CURLINFO_PRIVATE slot as a map from easy
handle to the stashed RequestHandle pointer.  checkActions is embedded as
the list of externally visible events it performs, in program order. -/

/-- Result codes of curl_multi_socket_action that the loop condition
distinguishes: CURLM_CALL_MULTI_PERFORM repeats the call, anything else
settles. -/
inductive CURLMcode where
  | ok
  | callMultiPerform
  | err (code : Nat)
deriving DecidableEq, Repr

/-- A message from curl_multi_info_read: the msg field is either
CURLMSG_DONE (msg_done = true) or something else, with the easy handle and
the per-transfer result code. -/
structure CURLMsg where
  msg_done : Bool
  easy_handle : Nat
  result : Nat
deriving DecidableEq, Repr

/-- Oracle for the curl multi engine during one checkActions call. -/
structure Engine where
  actionResults : List CURLMcode
  messages : List CURLMsg
  privateSlot : Nat → Nat

/-- Externally visible events of checkActions, in program order. -/
inductive Ev where
  | socketAction (socket : Int) (bitmask : Nat) (ret : CURLMcode)
  | getPrivate (easy : Nat) (ptr : Nat)
  | removeHandle (easy : Nat)
  | reconstitute (ptr : Nat)
  | setStatus (ptr : Nat) (result : Nat)
  | onComplete (ptr : Nat)
  | decActive
deriving DecidableEq, Repr

/-- The do-while loop of checkActions (lines 230-233): call
curl_multi_socket_action, repeat while it returns
CURLM_CALL_MULTI_PERFORM.  The oracle list supplies successive return
codes; an exhausted oracle returns CURLM_OK. -/
def driveLoop (socket : Int) (bitmask : Nat) : List CURLMcode → List Ev
  | [] => [Ev.socketAction socket bitmask CURLMcode.ok]
  | r :: rest =>
      if r = CURLMcode.callMultiPerform then
        Ev.socketAction socket bitmask r :: driveLoop socket bitmask rest
      else
        [Ev.socketAction socket bitmask r]

/-- Processing of one message from curl_multi_info_read (lines 238-263):
only CURLMSG_DONE messages are handled, and for those the code reads
CURLINFO_PRIVATE, removes the easy handle from the multi handle,
reconstitutes a Request around the recovered RequestHandle, sets the
request status to the per-transfer result, invokes OnComplete with the
Request moved in, and decrements the active request count. -/
def processMsg (priv : Nat → Nat) (m : CURLMsg) : List Ev :=
  if m.msg_done then
    [Ev.getPrivate m.easy_handle (priv m.easy_handle),
     Ev.removeHandle m.easy_handle,
     Ev.reconstitute (priv m.easy_handle),
     Ev.setStatus (priv m.easy_handle) m.result,
     Ev.onComplete (priv m.easy_handle),
     Ev.decActive]
  else []

/-- The drain loop of checkActions (lines 238-264): read every pending
message and process it. -/
def drainMessages (priv : Nat → Nat) (ms : List CURLMsg) : List Ev :=
  (ms.map (processMsg priv)).flatten

/-- Embedding of EventLoop::checkActions(socket, event_bitmask)
(lines 226-265): drive the engine until it settles, then drain the
completion messages. -/
def checkActions (eng : Engine) (socket : Int) (bitmask : Nat) : List Ev :=
  driveLoop socket bitmask eng.actionResults ++ drainMessages eng.privateSlot eng.messages

/-- CURL_SOCKET_TIMEOUT, the sentinel socket value (CURL_SOCKET_BAD, -1)
passed by the no-argument checkActions overload. -/
def CURL_SOCKET_TIMEOUT : Int := -1

/-- Embedding of the no-argument overload EventLoop::checkActions()
(lines 221-224): checkActions(CURL_SOCKET_TIMEOUT, 0). -/
def checkActionsDefault (eng : Engine) : List Ev :=
  checkActions eng CURL_SOCKET_TIMEOUT 0

/-- Embedding of on_uv_timeout_callback (lines 355-362): the timer expiry
invokes checkActions(CURL_SOCKET_TIMEOUT, 0) on the owning loop. -/
def on_uv_timeout_callback (eng : Engine) : List Ev :=
  checkActionsDefault eng

/-- Value of 2^64; the active request counter is a uint64_t. -/
def u64 : Nat := 2 ^ 64

/-- One application of the prefix decrement --m_active_request_count on a
uint64_t, modelled on Nat values below 2^64. -/
def decWrap (c : Nat) : Nat := (c + (u64 - 1)) % u64

/-- Effect of the checkActions drain on m_active_request_count
(line 262): one decrement per CURLMSG_DONE message. -/
def checkActionsActive (eng : Engine) (c : Nat) : Nat :=
  eng.messages.foldl (fun acc m => if m.msg_done then decWrap acc else acc) c

/-- True on the socket-action events of the trace. -/
def evIsSocketAction : Ev → Bool
  | Ev.socketAction _ _ _ => true
  | _ => false

/-- The engine return code carried by a socket-action event. -/
def evRet : Ev → Option CURLMcode
  | Ev.socketAction _ _ r => some r
  | _ => none

/-- True on the user-callback invocation events of the trace. -/
def evIsOnComplete : Ev → Bool
  | Ev.onComplete _ => true
  | _ => false

/-! ## Timer notifications from the engine (curl_start_timeout,
src/EventLoop.cpp lines 267-291) -/

/-- Actions of the timer-function callback, in program order.  timerStart
carries the uv_timer_start arguments timeout and repeat; repeat 0 means
single-shot. -/
inductive TimeoutAct where
  | timerStop
  | timerStart (timeout_ms : Nat) (repeat_ms : Nat)
  | checkInline
deriving DecidableEq, Repr

/-- Embedding of curl_start_timeout (lines 267-291): stop the current
timer unconditionally; then if timeout_ms > 0 arm the timer single-shot
(repeat 0) with on_uv_timeout_callback as the expiry callback, if
timeout_ms = 0 call checkActions() inline, and if timeout_ms < 0 do
nothing further. -/
def curl_start_timeout (timeout_ms : Int) : List TimeoutAct :=
  TimeoutAct.timerStop ::
    (if timeout_ms > 0 then [TimeoutAct.timerStart timeout_ms.toNat 0]
     else if timeout_ms = 0 then [TimeoutAct.checkInline]
     else [])

/-! ## Socket notifications from the engine (curl_handle_socket_actions,
src/EventLoop.cpp lines 293-340) -/

/-- Values of the curl socket-function action argument used by the
handler. -/
def CURL_POLL_IN : Nat := 1

def CURL_POLL_OUT : Nat := 2

def CURL_POLL_REMOVE : Nat := 4

/-- libuv poll interest bits. -/
def UV_READABLE : Nat := 1

def UV_WRITABLE : Nat := 2

/-- Externally visible actions of the socket-function handler. -/
inductive SockEv where
  | curlMultiAssign (socket : Int) (ctx : Option Nat)
  | pollStart (ctx : Nat) (events : Nat)
  | closeCtx (ctx : Nat)
deriving DecidableEq, Repr

/-- The per-socket state the handler touches: the socketp slot curl keeps
for this socket (holding the CurlContext pointer, modelled as a Nat id,
set via curl_multi_assign), plus an allocator counter standing for the
addresses of newly created CurlContext objects. -/
structure SocketSlotState where
  socketp : Option Nat
  nextCtx : Nat
deriving DecidableEq, Repr

/-- Embedding of curl_handle_socket_actions (lines 293-340) for one
socket.  For CURL_POLL_IN or CURL_POLL_OUT the context is taken from the
socketp slot, or freshly allocated and stored there via curl_multi_assign
when the slot is empty; then uv_poll_start registers read or write
interest.  For CURL_POLL_REMOVE, a present context is closed and the slot
cleared.  Every other action falls to the switch default and does
nothing. -/
def curl_handle_socket_actions (socket : Int) (action : Nat) (st : SocketSlotState) :
    SocketSlotState × List SockEv :=
  if action = CURL_POLL_IN ∨ action = CURL_POLL_OUT then
    match st.socketp with
    | some c =>
        (st, [SockEv.pollStart c (if action = CURL_POLL_IN then UV_READABLE else UV_WRITABLE)])
    | none =>
        ({ socketp := some st.nextCtx, nextCtx := st.nextCtx + 1 },
         [SockEv.curlMultiAssign socket (some st.nextCtx),
          SockEv.pollStart st.nextCtx (if action = CURL_POLL_IN then UV_READABLE else UV_WRITABLE)])
  else if action = CURL_POLL_REMOVE then
    match st.socketp with
    | some c =>
        ({ st with socketp := none },
         [SockEv.closeCtx c, SockEv.curlMultiAssign socket none])
    | none => (st, [])
  else (st, [])

/-! ## Poll-ready callback (on_uv_curl_perform_callback,
src/EventLoop.cpp lines 364-388) -/

/-- curl select bits fed to curl_multi_socket_action. -/
def CURL_CSELECT_IN : Nat := 1

def CURL_CSELECT_OUT : Nat := 2

def CURL_CSELECT_ERR : Nat := 4

/-- The bitmask computation of on_uv_curl_perform_callback
(lines 373-385): a negative status contributes CURL_CSELECT_ERR; with a
zero status the UV_READABLE bit contributes CURL_CSELECT_IN and the
UV_WRITABLE bit contributes CURL_CSELECT_OUT, combined with bitwise or. -/
def on_uv_curl_perform_action (status : Int) (events : Nat) : Nat :=
  let a1 := if status < 0 then CURL_CSELECT_ERR else 0
  let a2 := if status = 0 ∧ Nat.land events UV_READABLE ≠ 0 then Nat.lor a1 CURL_CSELECT_IN else a1
  if status = 0 ∧ Nat.land events UV_WRITABLE ≠ 0 then Nat.lor a2 CURL_CSELECT_OUT else a2

/-- Embedding of on_uv_curl_perform_callback (lines 364-388): compute the
bitmask and call checkActions with the socket FD stored in the contexts
GetCurlSocket accessor, here the sock_fd parameter. -/
def on_uv_curl_perform_callback (sock_fd : Int) (status : Int) (events : Nat)
    (eng : Engine) : List Ev :=
  checkActions eng sock_fd (on_uv_curl_perform_action status events)

/-! ## Submission and the wakeup drain (EventLoop::AddRequest lines
191-202, requests_accept_async lines 390-416) -/

/-- The RequestHandle as the drain sees it: the code releases the
unique_ptr and passes its m_curl_handle member to
curl_multi_add_handle. -/
structure RequestHandle where
  m_curl_handle : Nat
deriving DecidableEq, Repr

/-- A Request pending in the queue owns exactly one RequestHandle through
the unique_ptr member m_request_handle. -/
structure Request where
  m_request_handle : RequestHandle
deriving DecidableEq, Repr

/-- The state requests_accept_async touches: the pending queue, the set of
easy handles held by the multi handle (as a list in add order) and the
active request counter (a uint64_t value, kept below 2^64). -/
structure EventLoopQueueState where
  m_pending_requests : List Request
  engine_handles : List Nat
  m_active_request_count : Nat
deriving DecidableEq, Repr

/-- The for loop of requests_accept_async (lines 401-411): for each
pending request in queue order, release the RequestHandle from its owning
unique_ptr and pass its curl handle to curl_multi_add_handle, appending it
to the handles the engine owns. -/
def addLoop : List Nat → List Request → List Nat
  | eng, [] => eng
  | eng, r :: rest => addLoop (eng ++ [r.m_request_handle.m_curl_handle]) rest

/-- Embedding of requests_accept_async (lines 390-416): under the queue
lock, run the add loop over the pending requests in order, add the drained
count to m_active_request_count (uint64_t addition, so mod 2^64), and
clear the queue.  The whole body runs inside one lock scope, so it is one
atomic step of this model. -/
def requests_accept_async (st : EventLoopQueueState) : EventLoopQueueState :=
  { m_pending_requests := [],
    engine_handles := addLoop st.engine_handles st.m_pending_requests,
    m_active_request_count :=
      (st.m_active_request_count + st.m_pending_requests.length) % u64 }

/-- The state AddRequest touches: the pending queue and the number of
uv_async_send wakeups fired so far. -/
structure SubmitState where
  m_pending_requests : List Request
  wakeups : Nat
deriving DecidableEq, Repr

/-- Embedding of EventLoop::AddRequest (lines 191-202).  The
prepareForPerform collaborator is outside the two given source files and
is modelled from the spec: submission-time pre-prepare failure is
surfaced synchronously to the submitter (an exception thrown before the
lock scope at lines 197-200), so on failure control leaves AddRequest
before the queue is touched and before uv_async_send fires.  The prepare
parameter supplies the collaborator outcome; the result pairs the state
after the call with the synchronously surfaced error, if any. -/
def AddRequest (prepare : Request → Except Nat Request) (st : SubmitState)
    (request : Request) : SubmitState × Option Nat :=
  match prepare request with
  | Except.error e => (st, some e)
  | Except.ok prepared =>
      ({ m_pending_requests := st.m_pending_requests ++ [prepared],
         wakeups := st.wakeups + 1 }, none)

/-! ## Reentrant submission from the completion callback

The claim about calling AddRequest from inside the OnComplete callback
depends on the lock discipline: requests_accept_async holds the
non-recursive std::mutex m_pending_requests_lock for the whole drain
(lines 398-415), including every curl_multi_add_handle call.  libcurl may
invoke the registered timer function synchronously from inside
curl_multi_add_handle, and a 0 ms timeout makes curl_start_timeout call
checkActions inline (lines 287-290), which can drain a DONE message and
invoke OnComplete (line 261), which may call AddRequest, which acquires
the same mutex (line 198).  The model threads a lock-held flag through
that call chain; acquiring a held non-recursive std::mutex on the owning
thread is the deadlock outcome, modelled as none. -/

/-- Choices of the environment (engine and user callback) during one
drain. -/
structure ReentrantEnv where
  addTriggersTimerZero : Bool
  doneReady : Bool
  callbackSubmits : Bool
deriving DecidableEq, Repr

/-- std::lock_guard construction on m_pending_requests_lock: acquiring a
non-recursive mutex already held by the calling thread never returns. -/
def lockGuardAcquire (heldByThisThread : Bool) : Option Unit :=
  if heldByThisThread then none else some ()

/-- AddRequest with the lock state explicit: line 198 acquires
m_pending_requests_lock, then the request is appended and the wakeup
fired.  none is the deadlock outcome. -/
def AddRequest_inLoop (lockHeld : Bool) (st : SubmitState) (request : Request) :
    Option SubmitState :=
  match lockGuardAcquire lockHeld with
  | none => none
  | some _ =>
      some { m_pending_requests := st.m_pending_requests ++ [request],
             wakeups := st.wakeups + 1 }

/-- The user OnComplete callback, which the spec permits to call submit;
callbackSubmits chooses whether it does. -/
def OnComplete_env (lockHeld : Bool) (callbackSubmits : Bool) (st : SubmitState)
    (resubmit : Request) : Option SubmitState :=
  if callbackSubmits then AddRequest_inLoop lockHeld st resubmit else some st

/-- checkActions as reached from curl_start_timeout with timeout 0: when a
DONE message is ready it dispatches OnComplete. -/
def checkActions_env (lockHeld : Bool) (env : ReentrantEnv) (st : SubmitState)
    (resubmit : Request) : Option SubmitState :=
  if env.doneReady then OnComplete_env lockHeld env.callbackSubmits st resubmit
  else some st

/-- curl_multi_add_handle as called at line 410: libcurl may invoke the
timer function synchronously, and a 0 ms timeout runs checkActions inline
(lines 287-290). -/
def curl_multi_add_handle_env (lockHeld : Bool) (env : ReentrantEnv) (st : SubmitState)
    (resubmit : Request) : Option SubmitState :=
  if env.addTriggersTimerZero then checkActions_env lockHeld env st resubmit
  else some st

/-- The drain loop of requests_accept_async with the lock held, one
curl_multi_add_handle call per pending request. -/
def drainBody (env : ReentrantEnv) (resubmit : Request) :
    List Request → SubmitState → Option SubmitState
  | [], st => some st
  | _ :: rest, st =>
      match curl_multi_add_handle_env true env st resubmit with
      | none => none
      | some st2 => drainBody env resubmit rest st2

/-- requests_accept_async with the lock discipline explicit: the mutex is
free at entry (producers hold it only briefly and this model runs the
loop-thread side), the lock_guard at line 399 acquires it, and the whole
add loop runs with it held; on completion the queue is cleared.  none is
the deadlock outcome. -/
def requests_accept_async_env (env : ReentrantEnv) (st : SubmitState)
    (resubmit : Request) : Option SubmitState :=
  match drainBody env resubmit st.m_pending_requests st with
  | none => none
  | some st2 => some { st2 with m_pending_requests := [] }

/-! ## Helper lemmas -/

theorem findHeader_eq_none (nm : String) (l : List header) :
    findHeader nm l = none ↔ ∀ h ∈ l, h.name ≠ nm := by
  induction l with
  | nil => simp [findHeader]
  | cons h rest ih =>
    by_cases hn : h.name = nm
    · simp [findHeader, hn]
    · simp [findHeader, hn, ih]

theorem findHeader_eq_some (nm : String) (l : List header) (h : header)
    (hfind : findHeader nm l = some h) :
    h.name = nm ∧ ∃ pre post, l = pre ++ h :: post ∧ ∀ g ∈ pre, g.name ≠ nm := by
  induction l with
  | nil => simp [findHeader] at hfind
  | cons x rest ih =>
    by_cases hn : x.name = nm
    · simp [findHeader, hn] at hfind
      subst hfind
      exact ⟨hn, [], rest, rfl, by simp⟩
    · simp [findHeader, hn] at hfind
      obtain ⟨hname, pre, post, hsplit, hpre⟩ := ih hfind
      refine ⟨hname, x :: pre, post, by simp [hsplit], ?_⟩
      intro g hg
      rcases List.mem_cons.mp hg with hgx | hgpre
      · subst hgx; exact hn
      · exact hpre g hgpre

theorem driveLoop_shape (s : Int) (b : Nat) (rs : List CURLMcode) :
    ∃ (n : Nat) (last : CURLMcode), last ≠ CURLMcode.callMultiPerform ∧
      driveLoop s b rs
        = List.replicate n (Ev.socketAction s b CURLMcode.callMultiPerform)
          ++ [Ev.socketAction s b last] := by
  induction rs with
  | nil => exact ⟨0, CURLMcode.ok, by simp, by simp [driveLoop]⟩
  | cons r rest ih =>
    by_cases h : r = CURLMcode.callMultiPerform
    · obtain ⟨n, last, hl, heq⟩ := ih
      exact ⟨n + 1, last, hl, by simp [driveLoop, h, heq, List.replicate_succ]⟩
    · exact ⟨0, r, h, by simp [driveLoop, h]⟩

theorem driveLoop_all_socketAction (s : Int) (b : Nat) (rs : List CURLMcode) :
    ∀ e ∈ driveLoop s b rs, evIsSocketAction e = true := by
  obtain ⟨n, last, hl, heq⟩ := driveLoop_shape s b rs
  intro e he
  rw [heq] at he
  simp [List.mem_append, List.mem_replicate] at he
  rcases he with ⟨_, rfl⟩ | rfl <;> rfl

theorem processMsg_no_socketAction (priv : Nat → Nat) (m : CURLMsg) :
    ∀ e ∈ processMsg priv m, evIsSocketAction e = false := by
  intro e he
  cases hd : m.msg_done
  · simp [processMsg, hd] at he
  · simp [processMsg, hd] at he
    rcases he with rfl | rfl | rfl | rfl | rfl | rfl <;> rfl

theorem drainMessages_no_socketAction (priv : Nat → Nat) (ms : List CURLMsg) :
    ∀ e ∈ drainMessages priv ms, evIsSocketAction e = false := by
  intro e he
  simp [drainMessages, List.mem_flatten] at he
  obtain ⟨m, hm, hem⟩ := he
  exact processMsg_no_socketAction priv m e hem

theorem drainMessages_split (priv : Nat → Nat) (ms : List CURLMsg) (m : CURLMsg)
    (hm : m ∈ ms) :
    ∃ pre post, drainMessages priv ms = pre ++ processMsg priv m ++ post := by
  obtain ⟨s, t, rfl⟩ := List.append_of_mem hm
  refine ⟨drainMessages priv s, drainMessages priv t, ?_⟩
  simp [drainMessages]

theorem drainMessages_countP (priv : Nat → Nat) (ms : List CURLMsg) :
    (drainMessages priv ms).countP evIsOnComplete
      = ms.countP (fun x => x.msg_done) := by
  induction ms with
  | nil => rfl
  | cons m rest ih =>
    have hsplit : drainMessages priv (m :: rest)
        = processMsg priv m ++ drainMessages priv rest := by
      simp [drainMessages]
    rw [hsplit, List.countP_append, ih, List.countP_cons]
    cases hd : m.msg_done
    · simp [processMsg, hd, evIsOnComplete, List.countP_cons, List.countP_nil]
    · simp [processMsg, hd, evIsOnComplete, List.countP_cons, List.countP_nil]
      omega

theorem u64_pos : 0 < u64 := by decide

theorem decWrap_pred (c : Nat) (h0 : 0 < c) (hlt : c < u64) : decWrap c = c - 1 := by
  have hupos : 0 < u64 := u64_pos
  have h1 : c + (u64 - 1) = (c - 1) + u64 := by omega
  rw [decWrap, h1, Nat.add_mod_right, Nat.mod_eq_of_lt (by omega)]

theorem foldl_decWrap_countP (ms : List CURLMsg) :
    ∀ c : Nat, ms.countP (fun x => x.msg_done) ≤ c → c < u64 →
      ms.foldl (fun acc m => if m.msg_done then decWrap acc else acc) c
        = c - ms.countP (fun x => x.msg_done) := by
  induction ms with
  | nil => intro c _ _; simp
  | cons m rest ih =>
    intro c hle hlt
    rw [List.countP_cons] at hle ⊢
    rw [List.foldl_cons]
    cases hd : m.msg_done
    · rw [if_neg (by simp [hd])]
      rw [ih c (by simp [hd] at hle ⊢; omega) hlt]
      simp [hd]
    · have hc0 : 0 < c := by simp [hd] at hle; omega
      rw [if_pos (by simp [hd]), decWrap_pred c hc0 hlt]
      rw [ih (c - 1) (by simp [hd] at hle ⊢; omega) (by omega)]
      simp [hd]
      omega

theorem addLoop_eq (l : List Request) :
    ∀ eng : List Nat,
      addLoop eng l = eng ++ l.map (fun r => r.m_request_handle.m_curl_handle) := by
  induction l with
  | nil => intro eng; simp [addLoop]
  | cons r rest ih =>
    intro eng
    rw [addLoop, ih]
    simp

/-! ## Claim theorems -/

/-- Claim C1 (code bug in the source): the claim says Stop spin-waits
until BOTH the wakeup-closed flag and the timer-closed flag are true and
only then requests loop exit, matching the spec intent; but the spin
condition at source line 177 is (not timer_closed) AND (not async_closed),
which becomes false as soon as EITHER handle is closed.  At the failing
input timer_closed = true, async_closed = false the source condition stops
spinning while the spec-intended condition would keep waiting for the
wakeup handle. -/
theorem stop_spin_exits_with_wakeup_open :
    stop_spin_continue true false = false
    ∧ stop_spin_continue_spec true false = true := by
  decide

/-- Claim C2 (code bug in the source): the claim says calling AddRequest
from inside the completion callback is deadlock-free.  But
requests_accept_async holds the non-recursive queue mutex for the whole
drain, including the curl_multi_add_handle calls; the engine may invoke
the timer callback with a 0 ms timeout from inside
curl_multi_add_handle, running checkActions inline, which can dispatch
OnComplete, and an OnComplete that calls AddRequest then reacquires the
held mutex on the same thread.  At that concrete environment the drain
reaches the deadlock outcome. -/
theorem reentrant_submit_deadlocks :
    requests_accept_async_env
        (ReentrantEnv.mk true true true)
        (SubmitState.mk [Request.mk (RequestHandle.mk 1)] 0)
        (Request.mk (RequestHandle.mk 2)) = none := by
  rfl

/-- Claim C3: for every timer notification with timeout T, the handler
first stops the current timer unconditionally; if T > 0 it arms the timer
single-shot (repeat 0) for T ms whose expiry runs
checkActions(CURL_SOCKET_TIMEOUT, 0); if T = 0 it runs
checkActions(CURL_SOCKET_TIMEOUT, 0) inline; if T < 0 it leaves the timer
stopped. -/
theorem curl_start_timeout_cases (timeout_ms : Int) (eng : Engine) :
    (curl_start_timeout timeout_ms).head? = some TimeoutAct.timerStop
    ∧ (timeout_ms > 0 → curl_start_timeout timeout_ms
        = [TimeoutAct.timerStop, TimeoutAct.timerStart timeout_ms.toNat 0])
    ∧ (timeout_ms = 0 → curl_start_timeout timeout_ms
        = [TimeoutAct.timerStop, TimeoutAct.checkInline])
    ∧ (timeout_ms < 0 → curl_start_timeout timeout_ms = [TimeoutAct.timerStop])
    ∧ on_uv_timeout_callback eng = checkActions eng CURL_SOCKET_TIMEOUT 0
    ∧ checkActionsDefault eng = checkActions eng CURL_SOCKET_TIMEOUT 0 := by
  refine ⟨rfl, ?_, ?_, ?_, rfl, rfl⟩
  · intro h
    simp [curl_start_timeout, h]
  · intro h
    subst h
    rfl
  · intro h
    have h1 : ¬ timeout_ms > 0 := by omega
    have h2 : timeout_ms ≠ 0 := by omega
    simp [curl_start_timeout, h1, h2]

/-- Witness for claim C3 at T = 5. -/
theorem curl_start_timeout_cases_witness :
    curl_start_timeout 5 = [TimeoutAct.timerStop, TimeoutAct.timerStart 5 0] :=
  (curl_start_timeout_cases 5 (Engine.mk [] [] (fun h => h))).2.1 (by decide)

/-- Claim C4: checkActions first calls curl_multi_socket_action in a loop
while it returns CURLM_CALL_MULTI_PERFORM, and only after that loop
settles does it drain the completion messages: the trace is the drive
prefix (socket-action events only, all but the last returning
CALL_MULTI_PERFORM) followed by the drain suffix (no socket-action
events). -/
theorem checkActions_drives_then_drains (eng : Engine) (socket : Int) (bitmask : Nat) :
    checkActions eng socket bitmask
        = driveLoop socket bitmask eng.actionResults
          ++ drainMessages eng.privateSlot eng.messages
    ∧ (∀ e ∈ driveLoop socket bitmask eng.actionResults, evIsSocketAction e = true)
    ∧ (∀ e ∈ drainMessages eng.privateSlot eng.messages, evIsSocketAction e = false)
    ∧ ∃ (n : Nat) (last : CURLMcode), last ≠ CURLMcode.callMultiPerform ∧
        driveLoop socket bitmask eng.actionResults
          = List.replicate n (Ev.socketAction socket bitmask CURLMcode.callMultiPerform)
            ++ [Ev.socketAction socket bitmask last] :=
  ⟨rfl, driveLoop_all_socketAction socket bitmask eng.actionResults,
   drainMessages_no_socketAction eng.privateSlot eng.messages,
   driveLoop_shape socket bitmask eng.actionResults⟩

/-- Witness for claim C4 on a concrete engine oracle. -/
theorem checkActions_drives_then_drains_witness :
    checkActions
        (Engine.mk [CURLMcode.callMultiPerform, CURLMcode.ok]
          [CURLMsg.mk true 5 0] (fun h => h)) 3 2
      = driveLoop 3 2 [CURLMcode.callMultiPerform, CURLMcode.ok]
        ++ drainMessages (fun h => h) [CURLMsg.mk true 5 0] :=
  (checkActions_drives_then_drains
    (Engine.mk [CURLMcode.callMultiPerform, CURLMcode.ok]
      [CURLMsg.mk true 5 0] (fun h => h)) 3 2).1

/-- Claim C5: for each CURLMSG_DONE message the drain performs, in order,
CURLINFO_PRIVATE recovery of the stashed back-pointer, removal of the
easy handle from the multi handle, reconstitution of a Request around the
handle, setting its status to the per-transfer result code, exactly one
OnComplete invocation with the Request moved in, and one decrement of the
active request count (so a drain of d DONE messages takes the counter
from c to c - d). -/
theorem done_message_dispatch (eng : Engine) (m : CURLMsg)
    (hm : m ∈ eng.messages) (hdone : m.msg_done = true) :
    (∃ pre post,
        drainMessages eng.privateSlot eng.messages
          = pre
            ++ [Ev.getPrivate m.easy_handle (eng.privateSlot m.easy_handle),
                Ev.removeHandle m.easy_handle,
                Ev.reconstitute (eng.privateSlot m.easy_handle),
                Ev.setStatus (eng.privateSlot m.easy_handle) m.result,
                Ev.onComplete (eng.privateSlot m.easy_handle),
                Ev.decActive]
            ++ post)
    ∧ (drainMessages eng.privateSlot eng.messages).countP evIsOnComplete
        = eng.messages.countP (fun x => x.msg_done)
    ∧ (∀ c : Nat, eng.messages.countP (fun x => x.msg_done) ≤ c → c < u64 →
        checkActionsActive eng c = c - eng.messages.countP (fun x => x.msg_done)) := by
  refine ⟨?_, drainMessages_countP eng.privateSlot eng.messages, ?_⟩
  · obtain ⟨pre, post, heq⟩ := drainMessages_split eng.privateSlot eng.messages m hm
    refine ⟨pre, post, ?_⟩
    rw [heq]
    simp [processMsg, hdone]
  · intro c h1 h2
    exact foldl_decWrap_countP eng.messages c h1 h2

/-- Witness for claim C5 on a one-message engine oracle. -/
theorem done_message_dispatch_witness :
    (drainMessages
        (Engine.mk [] [CURLMsg.mk true 7 22] (fun h => h + 100)).privateSlot
        (Engine.mk [] [CURLMsg.mk true 7 22] (fun h => h + 100)).messages).countP
          evIsOnComplete
      = ([CURLMsg.mk true 7 22] : List CURLMsg).countP (fun x => x.msg_done) :=
  (done_message_dispatch (Engine.mk [] [CURLMsg.mk true 7 22] (fun h => h + 100))
    (CURLMsg.mk true 7 22) (by decide) rfl).2.1

/-- Claim C6: for every socket notification, CURL_POLL_IN and
CURL_POLL_OUT look up the context in the per-socket slot, allocate and
store a fresh one when the slot is empty, and register read respectively
write interest; CURL_POLL_REMOVE closes a present context and clears the
slot, and does nothing when the slot is empty; any other action is a
no-op. -/
theorem curl_handle_socket_actions_cases (socket : Int) (action : Nat)
    (st : SocketSlotState) :
    (∀ c, st.socketp = some c → action = CURL_POLL_IN →
        curl_handle_socket_actions socket action st
          = (st, [SockEv.pollStart c UV_READABLE]))
    ∧ (∀ c, st.socketp = some c → action = CURL_POLL_OUT →
        curl_handle_socket_actions socket action st
          = (st, [SockEv.pollStart c UV_WRITABLE]))
    ∧ (st.socketp = none → action = CURL_POLL_IN →
        curl_handle_socket_actions socket action st
          = (SocketSlotState.mk (some st.nextCtx) (st.nextCtx + 1),
             [SockEv.curlMultiAssign socket (some st.nextCtx),
              SockEv.pollStart st.nextCtx UV_READABLE]))
    ∧ (st.socketp = none → action = CURL_POLL_OUT →
        curl_handle_socket_actions socket action st
          = (SocketSlotState.mk (some st.nextCtx) (st.nextCtx + 1),
             [SockEv.curlMultiAssign socket (some st.nextCtx),
              SockEv.pollStart st.nextCtx UV_WRITABLE]))
    ∧ (∀ c, st.socketp = some c → action = CURL_POLL_REMOVE →
        curl_handle_socket_actions socket action st
          = (SocketSlotState.mk none st.nextCtx,
             [SockEv.closeCtx c, SockEv.curlMultiAssign socket none]))
    ∧ (st.socketp = none → action = CURL_POLL_REMOVE →
        curl_handle_socket_actions socket action st = (st, []))
    ∧ (action ≠ CURL_POLL_IN → action ≠ CURL_POLL_OUT → action ≠ CURL_POLL_REMOVE →
        curl_handle_socket_actions socket action st = (st, [])) := by
  refine ⟨?_, ?_, ?_, ?_, ?_, ?_, ?_⟩
  · intro c hslot ha
    subst ha
    simp [curl_handle_socket_actions, hslot, CURL_POLL_IN, CURL_POLL_OUT]
  · intro c hslot ha
    subst ha
    simp [curl_handle_socket_actions, hslot, CURL_POLL_IN, CURL_POLL_OUT]
  · intro hslot ha
    subst ha
    simp [curl_handle_socket_actions, hslot, CURL_POLL_IN, CURL_POLL_OUT]
  · intro hslot ha
    subst ha
    simp [curl_handle_socket_actions, hslot, CURL_POLL_IN, CURL_POLL_OUT]
  · intro c hslot ha
    subst ha
    simp [curl_handle_socket_actions, hslot, CURL_POLL_IN, CURL_POLL_OUT,
      CURL_POLL_REMOVE]
  · intro hslot ha
    subst ha
    simp [curl_handle_socket_actions, hslot, CURL_POLL_IN, CURL_POLL_OUT,
      CURL_POLL_REMOVE]
  · intro h1 h2 h3
    simp [curl_handle_socket_actions, h1, h2, h3]

/-- Witness for claim C6: a CURL_POLL_IN on an empty slot allocates a
fresh context, stores it, and registers read interest. -/
theorem curl_handle_socket_actions_cases_witness :
    curl_handle_socket_actions 9 CURL_POLL_IN (SocketSlotState.mk none 0)
      = (SocketSlotState.mk (some 0) 1,
         [SockEv.curlMultiAssign 9 (some 0), SockEv.pollStart 0 UV_READABLE]) :=
  (curl_handle_socket_actions_cases 9 CURL_POLL_IN (SocketSlotState.mk none 0)).2.2.1
    rfl rfl

/-- Claim C7: the poll-ready callback maps a negative reactor status to
CURL_CSELECT_ERR and, for a zero status, UV_READABLE to CURL_CSELECT_IN
and UV_WRITABLE to CURL_CSELECT_OUT, the two combinable by addition of
disjoint bits, then calls checkActions with the contexts socket FD and
the resulting bitmask. -/
theorem on_uv_curl_perform_translates (sock_fd : Int) (status : Int) (events : Nat)
    (eng : Engine) :
    on_uv_curl_perform_callback sock_fd status events eng
        = checkActions eng sock_fd (on_uv_curl_perform_action status events)
    ∧ (status < 0 → on_uv_curl_perform_action status events = CURL_CSELECT_ERR)
    ∧ (status = 0 → on_uv_curl_perform_action status events
        = (if Nat.land events UV_READABLE ≠ 0 then CURL_CSELECT_IN else 0)
          + (if Nat.land events UV_WRITABLE ≠ 0 then CURL_CSELECT_OUT else 0)) := by
  refine ⟨rfl, ?_, ?_⟩
  · intro h
    have h0 : ¬ status = 0 := by omega
    simp [on_uv_curl_perform_action, h, h0]
  · intro h
    have hlt : ¬ status < 0 := by omega
    by_cases hr : Nat.land events UV_READABLE ≠ 0 <;>
      by_cases hw : Nat.land events UV_WRITABLE ≠ 0 <;>
        simp [on_uv_curl_perform_action, h, hlt, hr, hw, CURL_CSELECT_IN,
          CURL_CSELECT_OUT, CURL_CSELECT_ERR] <;> decide

/-- Witness for claim C7 with a readable and writable zero-status event. -/
theorem on_uv_curl_perform_translates_witness :
    on_uv_curl_perform_action 0 3
      = (if Nat.land 3 UV_READABLE ≠ 0 then CURL_CSELECT_IN else 0)
        + (if Nat.land 3 UV_WRITABLE ≠ 0 then CURL_CSELECT_OUT else 0) :=
  (on_uv_curl_perform_translates 0 0 3 (Engine.mk [] [] (fun h => h))).2.2 rfl

/-- Claim C8: one wakeup drain moves the pending requests into the engine
in FIFO order (each handle released from its owning request and appended
to the engine handles in queue order), adds exactly the drained count to
the active request counter within the same locked step (uint64_t
addition, exact whenever it does not wrap), and leaves the queue
empty. -/
theorem requests_accept_async_drains (st : EventLoopQueueState) :
    (requests_accept_async st).engine_handles
        = st.engine_handles
          ++ st.m_pending_requests.map (fun r => r.m_request_handle.m_curl_handle)
    ∧ (requests_accept_async st).m_pending_requests = []
    ∧ (requests_accept_async st).m_active_request_count
        = (st.m_active_request_count + st.m_pending_requests.length) % u64
    ∧ (st.m_active_request_count + st.m_pending_requests.length < u64 →
        (requests_accept_async st).m_active_request_count
          = st.m_active_request_count + st.m_pending_requests.length) :=
  ⟨addLoop_eq st.m_pending_requests st.engine_handles, rfl, rfl,
   fun h => by simp [requests_accept_async, Nat.mod_eq_of_lt h]⟩

/-- Witness for claim C8 on a two-request queue. -/
theorem requests_accept_async_drains_witness :
    (requests_accept_async
        (EventLoopQueueState.mk
          [Request.mk (RequestHandle.mk 3), Request.mk (RequestHandle.mk 4)]
          [1] 1)).m_active_request_count
      = 1 + 2 :=
  (requests_accept_async_drains
    (EventLoopQueueState.mk
      [Request.mk (RequestHandle.mk 3), Request.mk (RequestHandle.mk 4)]
      [1] 1)).2.2.2 (by decide)

/-- Claim C9: when the pre-submission preparation step fails, AddRequest
surfaces the failure synchronously to the submitting caller and leaves
the pending queue and the wakeup untouched; on success the request is
appended to the queue and one wakeup is fired. -/
theorem AddRequest_prepare_failure (prepare : Request → Except Nat Request)
    (st : SubmitState) (request : Request) :
    (∀ e, prepare request = Except.error e →
        AddRequest prepare st request = (st, some e))
    ∧ (∀ p, prepare request = Except.ok p →
        AddRequest prepare st request
          = (SubmitState.mk (st.m_pending_requests ++ [p]) (st.wakeups + 1), none)) := by
  constructor <;> intro x hx <;> simp [AddRequest, hx]

/-- Witness for claim C9 with a prepare step failing with code 7. -/
theorem AddRequest_prepare_failure_witness :
    AddRequest (fun _ => Except.error 7) (SubmitState.mk [] 0)
        (Request.mk (RequestHandle.mk 1))
      = (SubmitState.mk [] 0, some 7) :=
  (AddRequest_prepare_failure (fun _ => Except.error 7) (SubmitState.mk [] 0)
    (Request.mk (RequestHandle.mk 1))).1 7 rfl

/-- Claim C10: response::header returns the first stored header whose
name equals the query (earliest wins with duplicates) and nullopt exactly
when no stored header has that name; the embedding is a pure function of
the response, matching the const lookup. -/
theorem response_header_first_match (r : response) (nm : String) :
    (∀ h, r.header nm = some h →
        h.name = nm
        ∧ ∃ pre post, r.m_headers = pre ++ h :: post ∧ ∀ g ∈ pre, g.name ≠ nm)
    ∧ (r.header nm = none ↔ ∀ h ∈ r.m_headers, h.name ≠ nm) := by
  constructor
  · intro h hfind
    exact findHeader_eq_some nm r.m_headers h hfind
  · exact findHeader_eq_none nm r.m_headers

/-- Witness for claim C10: with duplicate names the earliest stored
header wins. -/
theorem response_header_first_match_witness :
    response.header
        (response.mk [header.mk "a" "1", header.mk "b" "2", header.mk "b" "3"]) "b"
      = some (header.mk "b" "2")
    ∧ ((header.mk "b" "2").name = "b"
        ∧ ∃ pre post,
            ([header.mk "a" "1", header.mk "b" "2", header.mk "b" "3"] : List header)
              = pre ++ header.mk "b" "2" :: post
            ∧ ∀ g ∈ pre, g.name ≠ "b") :=
  ⟨by decide,
   (response_header_first_match
     (response.mk [header.mk "a" "1", header.mk "b" "2", header.mk "b" "3"]) "b").1
     (header.mk "b" "2") (by decide)⟩

end Lift
